import Mathlib

/-!
Shallow embedding of `src/crypt.py` (an encrypting FUSE filesystem).

Byte buffers (Python `bytes` / `bytearray`) are modelled as `List Nat`.
Python dicts keyed by path strings are modelled as insertion-ordered
association lists with in-place replacement on update.  Operations that can
raise (`KeyError`, OS errors) return `Option`.
-/

/-- Clamp a Python slice index (which may be negative, meaning "from the
end") to an actual position in a buffer of length `len`, following
CPython's `slice.indices` rules for step 1. -/
def pySliceIdx (i : Int) (len : Nat) : Nat :=
  if i < 0 then (i + len).toNat else min i.toNat len

/-- Python slice assignment `buf[start:stop] = d` for step 1: the clamped
range `[lo, hi)` is removed and `d` is spliced in at `lo`; when the clamped
stop lies before the start, `d` is inserted at `lo`.  The buffer may grow
or shrink.  `start` is a `Nat` because the source only ever passes a
non-negative offset there; `stop` is `offset + len(data) - 1`, which can be
`-1` in Python when both are zero, so it stays an `Int`. -/
def pySetSlice (buf : List Nat) (start : Nat) (stop : Int) (d : List Nat) : List Nat :=
  let lo := min start buf.length
  let hi := max lo (pySliceIdx stop buf.length)
  buf.take lo ++ d ++ buf.drop hi

/-- Python read slice `buf[start:stop]` for non-negative `start ≤ stop`,
clipped to the buffer's length. -/
def pyGetSlice (buf : List Nat) (start stop : Nat) : List Nat :=
  (buf.take stop).drop start

/-- Source `_encrypt`: `bytearray(data)`, i.e. a copy of the bytes
(the "dummy crypto" of the source; the reversing variant is commented out
there). -/
def _encrypt (data : List Nat) : List Nat := data

/-- Source `_decrypt`: `bytearray(data)`, a copy of the bytes. -/
def _decrypt (data : List Nat) : List Nat := data

/-- Source class `File`: the in-memory plaintext state of one open file. -/
structure File where
  file_handle : Nat
  data : List Nat
  open_handles : Int
  dirty : Bool
deriving DecidableEq

/-- Source `File.__init__(file_handle, encrypted_data=None)`. -/
def File.init (fh : Nat) (encrypted_data : Option (List Nat)) : File :=
  { file_handle := fh
    data :=
      match encrypted_data with
      | none => []
      | some d => _decrypt d
    open_handles := 1
    dirty := false }

/-- Source `File.write(data, offset)`:
sets `dirty`; if `offset + len(data) > len(self.data)` extends the buffer
with `missing_len - 1` zero bytes (the source's `[0]*(missing_len-1)`);
then performs the slice assignment
`self.data[offset : offset+len(data)-1] = data`. -/
def File.write (f : File) (data : List Nat) (offset : Nat) : File :=
  let new_data_len := data.length
  let missing_len : Int := (offset : Int) + new_data_len - f.data.length
  let buf :=
    if 0 < missing_len then
      f.data ++ List.replicate (missing_len - 1).toNat 0
    else
      f.data
  { f with
      dirty := true
      data := pySetSlice buf offset ((offset : Int) + new_data_len - 1) data }

/-- Source `File.truncate(length)`: no-op at equal length; shrink keeps the
first `length` bytes; grow extends with `(length - cur_len) - 1` zero bytes
(the source's `[0] * ((length - cur_len) - 1)`). -/
def File.truncate (f : File) (length : Nat) : File :=
  let cur_len := f.data.length
  if cur_len = length then
    f
  else if length < cur_len then
    { f with dirty := true, data := f.data.take length }
  else
    { f with dirty := true, data := f.data ++ List.replicate (length - cur_len - 1) 0 }

/-- Lookup in a Python dict modelled as an association list
(`d[k]` / `k in d`): first (and only) binding of the key. -/
def dictGet {α : Type} (m : List (String × α)) (p : String) : Option α :=
  match m with
  | [] => none
  | (q, v) :: rest => if q = p then some v else dictGet rest p

/-- Python dict update `d[k] = v`: replace in place if the key is bound,
else append, preserving insertion order. -/
def dictSet {α : Type} (m : List (String × α)) (p : String) (v : α) : List (String × α) :=
  match m with
  | [] => [(p, v)]
  | (q, w) :: rest => if q = p then (p, v) :: rest else (q, w) :: dictSet rest p v

/-- Python dict deletion `del d[k]`. -/
def dictDel {α : Type} (m : List (String × α)) (p : String) : List (String × α) :=
  match m with
  | [] => []
  | (q, w) :: rest => if q = p then rest else (q, w) :: dictDel rest p

/-- Source class `FilesCache`: the table of open files and the handle
counter.  The `root` field plays no role in the cache logic and is
omitted. -/
structure FilesCache where
  files : List (String × File)
  next_fh : Nat
deriving DecidableEq

/-- Source `FilesCache.next_file_handle`. -/
def FilesCache.next_file_handle (c : FilesCache) : Nat × FilesCache :=
  (c.next_fh, { c with next_fh := c.next_fh + 1 })

/-- Source `FilesCache.create(path)`: builds a fresh `File` and stores it at
`path` unconditionally — there is no existence check, so an existing entry
is silently replaced. -/
def FilesCache.create (c : FilesCache) (path : String) : File × FilesCache :=
  let nc := c.next_file_handle
  let f := File.init nc.1 none
  (f, { nc.2 with files := dictSet nc.2.files path f })

/-- Source `FilesCache.open(path, data)`: the source's
`assert path is not self.files` compares a string with the dict by object
identity, which is always false-negative (the assert never fires), so the
method unconditionally builds a fresh `File` from the on-disk bytes and
stores it at `path`, replacing any existing entry.  (`open` is a Lean
keyword, hence the name `openFile`.) -/
def FilesCache.openFile (c : FilesCache) (path : String) (data : List Nat) : File × FilesCache :=
  let nc := c.next_file_handle
  let fo := File.init nc.1 (some data)
  (fo, { nc.2 with files := dictSet nc.2.files path fo })

/-- Source `FilesCache.write(path, data, offset)`; `none` models the
`KeyError` raised by `self.files[path]` on an absent path. -/
def FilesCache.write (c : FilesCache) (path : String) (data : List Nat) (offset : Nat) :
    Option FilesCache :=
  match dictGet c.files path with
  | none => none
  | some f => some { c with files := dictSet c.files path (f.write data offset) }

/-- Source `FilesCache.truncate(path, length)`; `none` models `KeyError`. -/
def FilesCache.truncate (c : FilesCache) (path : String) (length : Nat) :
    Option FilesCache :=
  match dictGet c.files path with
  | none => none
  | some f => some { c with files := dictSet c.files path (f.truncate length) }

/-- Source `FilesCache.get_ciphertext(path)`: `_encrypt(f.data)`, a pure
read of the table; `none` models `KeyError`. -/
def FilesCache.get_ciphertext (c : FilesCache) (path : String) : Option (List Nat) :=
  match dictGet c.files path with
  | none => none
  | some f => some (_encrypt f.data)

/-- Source `FilesCache.get_plaintext(path)`; `none` models `KeyError`. -/
def FilesCache.get_plaintext (c : FilesCache) (path : String) : Option (List Nat) :=
  match dictGet c.files path with
  | none => none
  | some f => some f.data

/-- Source `FilesCache.release(path)`: decrement `open_handles` and evict
the entry when the count reaches zero or below; `none` models `KeyError`. -/
def FilesCache.release (c : FilesCache) (path : String) : Option FilesCache :=
  match dictGet c.files path with
  | none => none
  | some f =>
    let f2 := { f with open_handles := f.open_handles - 1 }
    if f2.open_handles ≤ 0 then
      some { c with files := dictDel c.files path }
    else
      some { c with files := dictSet c.files path f2 }

/-- Source class `Crypt` together with the backing storage it manipulates:
`backing` maps a path to the byte content of the underlying file below
`root` (the OS filesystem the source reaches through `os` and `open`). -/
structure Crypt where
  files : FilesCache
  backing : List (String × List Nat)
deriving DecidableEq

/-- Source `Crypt.open(path, flags)`: read the whole backing file and hand
the raw bytes to the cache; `none` models the OS error when the backing
file does not exist. -/
def Crypt.openFile (s : Crypt) (path : String) : Option (Nat × Crypt) :=
  match dictGet s.backing path with
  | none => none
  | some contents =>
    let fc := s.files.openFile path contents
    some (fc.1.file_handle, { s with files := fc.2 })

/-- Source `Crypt.create(path, mode, fi=None)`: `os.open` with
`O_WRONLY | O_CREAT` (no `O_TRUNC`) creates an empty backing file only when
none exists, then the cache entry is created (replacing any existing
one). -/
def Crypt.create (s : Crypt) (path : String) : Nat × Crypt :=
  let backing :=
    match dictGet s.backing path with
    | some _ => s.backing
    | none => dictSet s.backing path []
  let fc := s.files.create path
  (fc.1.file_handle, { files := fc.2, backing := backing })

/-- Source `Crypt.read(path, length, offset, fh)`: the body is wrapped in
`try/except` with a bare `except` that prints and falls through, so when
the path has no cache entry the `KeyError` from `get_plaintext` is
swallowed and the method returns Python `None` — no FUSE error is raised.
`none` here models that returned `None`.  On a present path it returns
`data[offset : offset+length]`, clipped by Python slicing. -/
def Crypt.read (s : Crypt) (path : String) (length offset : Nat) : Option (List Nat) :=
  match s.files.get_plaintext path with
  | none => none
  | some data => some (pyGetSlice data offset (offset + length))

/-- Source `Crypt.write(path, buf, offset, fh)`: delegate to the cache and
return `len(buf)`. -/
def Crypt.write (s : Crypt) (path : String) (buf : List Nat) (offset : Nat) :
    Option (Nat × Crypt) :=
  match s.files.write path buf offset with
  | none => none
  | some c => some (buf.length, { s with files := c })

/-- Source `Crypt.truncate(path, length, fh=None)`: delegate to the
cache. -/
def Crypt.truncate (s : Crypt) (path : String) (length : Nat) : Option Crypt :=
  match s.files.truncate path length with
  | none => none
  | some c => some { s with files := c }

/-- Source `Crypt._do_flush(path)`: open the backing file with mode `"wb"`
(truncating it) and write `get_ciphertext(path)` in full, so the backing
content becomes exactly the ciphertext.  When the path has no cache entry
`get_ciphertext` raises `KeyError` and the call fails (`none`).  Note the
source never resets the `dirty` flag here. -/
def Crypt._do_flush (s : Crypt) (path : String) : Option Crypt :=
  match s.files.get_ciphertext path with
  | none => none
  | some ct => some { s with backing := dictSet s.backing path ct }

/-- Source `Crypt.flush(path, fh)`: just `_do_flush`. -/
def Crypt.flush (s : Crypt) (path : String) : Option Crypt :=
  Crypt._do_flush s path

/-- Source `Crypt.release(path, fh)`: unconditionally `_do_flush`, then
decrement the handle count via `FilesCache.release`. -/
def Crypt.release (s : Crypt) (path : String) : Option Crypt :=
  match Crypt._do_flush s path with
  | none => none
  | some s1 =>
    match s1.files.release path with
    | none => none
    | some c => some { s1 with files := c }

/-- Updating a dict at a key makes lookup at that key return the new
value. -/
theorem dictGet_dictSet {α : Type} (m : List (String × α)) (p : String) (v : α) :
    dictGet (dictSet m p v) p = some v := by
  induction m with
  | nil => simp [dictGet, dictSet]
  | cons hd tl ih =>
    obtain ⟨q, w⟩ := hd
    by_cases h : q = p
    · simp [dictGet, dictSet, h]
    · simp [dictGet, dictSet, h, ih]

/-- Two successive updates of a dict at the same key collapse to the
last one. -/
theorem dictSet_dictSet {α : Type} (m : List (String × α)) (p : String) (v w : α) :
    dictSet (dictSet m p v) p w = dictSet m p w := by
  induction m with
  | nil => simp [dictSet]
  | cons hd tl ih =>
    obtain ⟨q, u⟩ := hd
    by_cases h : q = p
    · simp [dictSet, h]
    · simp [dictSet, h, ih]

/-- C1: the spec claims that after `write(p, d, o)` the buffer has length
`max(old length, o + len(d))` with `d` overwritten in place.  Evaluating
the source code at buffer `[1,2,3]`, data `[9]`, offset `0`: the slice
assignment `data[0:0] = [9]` inserts the byte instead of overwriting, so
the buffer becomes `[9,1,2,3]` of length 4, not `[9,2,3]` of length 3. -/
theorem C1_write_code_eval :
    (File.mk 0 [1, 2, 3] 1 false).write [9] 0 = File.mk 0 [9, 1, 2, 3] 1 true := by
  decide

/-- C2: the spec claims `truncate(p, L)` with `L` above the current length
yields a buffer of exactly length `L`.  Evaluating the source code at an
empty buffer and `L = 2`: it extends by `(2 - 0) - 1 = 1` zero byte, one
short, giving length 1 instead of 2. -/
theorem C2_truncate_grow_code_eval :
    (File.mk 0 [] 1 false).truncate 2 = File.mk 0 [0] 1 true := by
  decide

/-- C3: the spec claims a second `create("/a")` without an intervening
release fails with `Conflict` and leaves the existing state unchanged.
Evaluating the source code: after `create("/a")` and a write of `[7]`, a
second `create("/a")` succeeds (the code has no existence check and no
error path) and replaces the entry with a fresh `File` — new handle 1,
empty buffer, handle count reset to 1. -/
theorem C3_create_replaces_code_eval :
    ((FilesCache.mk [] 0).create "/a").2.write "/a" [7] 0
      = some (FilesCache.mk [("/a", File.mk 0 [7] 1 true)] 1) ∧
    ((FilesCache.mk [("/a", File.mk 0 [7] 1 true)] 1).create "/a").2
      = FilesCache.mk [("/a", File.mk 1 [] 1 false)] 2 := by
  decide

/-- C4 counterexample: the claim says that after a successful `flush(p)`
the dirty flag is false.  Evaluating the code on an open dirty file at
`"/a"`: the flush succeeds, yet the entry's dirty flag is still `true`
afterwards — the source never resets `dirty`. -/
theorem C4_counterexample :
    (Crypt.flush (Crypt.mk (FilesCache.mk [("/a", File.mk 0 [7] 1 true)] 1)
        [("/a", [])]) "/a").map
      (fun t => (dictGet t.files.files "/a").map File.dirty) = some (some true) := by
  decide

/-- C4 (amended): for every state with path `p` open with file state `f`,
`flush(p)` succeeds, the backing storage content at `p` becomes exactly
`encrypt(buffer)`, and the `FilesCache` (hence the dirty flag) is left
unchanged — the flag is not cleared. -/
theorem C4_flush_writes_ciphertext (s : Crypt) (p : String) (f : File)
    (h : dictGet s.files.files p = some f) :
    Crypt.flush s p = some (Crypt.mk s.files (dictSet s.backing p (_encrypt f.data))) ∧
    dictGet (dictSet s.backing p (_encrypt f.data)) p = some (_encrypt f.data) := by
  refine ⟨?_, dictGet_dictSet _ _ _⟩
  simp [Crypt.flush, Crypt._do_flush, FilesCache.get_ciphertext, h]

/-- C4 witness: the amended flush theorem at the concrete state holding
`"/a"` with buffer `[7]` and empty backing. -/
theorem C4_witness :
    Crypt.flush (Crypt.mk (FilesCache.mk [("/a", File.mk 0 [7] 1 false)] 1) []) "/a"
      = some (Crypt.mk (FilesCache.mk [("/a", File.mk 0 [7] 1 false)] 1)
          (dictSet [] "/a" (_encrypt [7]))) ∧
    dictGet (dictSet ([] : List (String × List Nat)) "/a" (_encrypt [7])) "/a"
      = some (_encrypt [7]) :=
  C4_flush_writes_ciphertext
    (Crypt.mk (FilesCache.mk [("/a", File.mk 0 [7] 1 false)] 1) [])
    "/a" (File.mk 0 [7] 1 false) (by decide)

/-- C5: the spec claims `N` opens of a path require `N` releases before
eviction.  Evaluating the source code with backing file `"/a"` holding
`[5]`: a second open replaces the entry with a fresh `File` whose handle
count is again 1 (never incremented), and a single release after two opens
already evicts the entry from the table. -/
theorem C5_refcount_code_eval :
    Crypt.openFile (Crypt.mk (FilesCache.mk [] 0) [("/a", [5])]) "/a"
      = some (0, Crypt.mk (FilesCache.mk [("/a", File.mk 0 [5] 1 false)] 1)
          [("/a", [5])]) ∧
    Crypt.openFile (Crypt.mk (FilesCache.mk [("/a", File.mk 0 [5] 1 false)] 1)
        [("/a", [5])]) "/a"
      = some (1, Crypt.mk (FilesCache.mk [("/a", File.mk 1 [5] 1 false)] 2)
          [("/a", [5])]) ∧
    (Crypt.release (Crypt.mk (FilesCache.mk [("/a", File.mk 1 [5] 1 false)] 2)
        [("/a", [5])]) "/a").map
      (fun s => dictGet s.files.files "/a") = some none := by
  decide

/-- C6: the spec claims a read on a path with no open `FileState` fails
with `NotFound`.  Evaluating the source code: the bare `except` swallows
the `KeyError` and the method returns Python `None` (modelled `none`) —
no error is raised.  The clipped-read half of the claim does hold: reading
10 bytes at offset 1 of the 3-byte buffer `[1,2,3]` returns the available
suffix `[2,3]`. -/
theorem C6_read_code_eval :
    Crypt.read (Crypt.mk (FilesCache.mk [] 0) []) "/a" 4 0 = none ∧
    Crypt.read (Crypt.mk (FilesCache.mk [("/a", File.mk 0 [1, 2, 3] 1 false)] 1) [])
        "/a" 10 1
      = some [2, 3] := by
  decide

/-- C7: for every open file, `truncate` at the current length is a no-op
leaving buffer and dirty flag unchanged, and `truncate` to a strictly
smaller `L` yields exactly the first `L` bytes of the original buffer,
of length exactly `L`, and sets the dirty flag. -/
theorem C7_truncate_noop_and_shrink (f : File) (L : Nat) :
    (L = f.data.length → f.truncate L = f) ∧
    (L < f.data.length →
      (f.truncate L).data = f.data.take L ∧
      (f.truncate L).data.length = L ∧
      (f.truncate L).dirty = true) := by
  constructor
  · intro h
    simp [File.truncate, h]
  · intro h
    have hne : f.data.length ≠ L := Nat.ne_of_gt h
    simp [File.truncate, hne, h, Nat.le_of_lt h]

/-- C7 witness: the truncate theorem at buffer `[1,2,3]` with the no-op
length 3 and the shrink length 1. -/
theorem C7_witness :
    (File.mk 0 [1, 2, 3] 1 false).truncate 3 = File.mk 0 [1, 2, 3] 1 false ∧
    ((File.mk 0 [1, 2, 3] 1 false).truncate 1).data = [1] := by
  refine ⟨(C7_truncate_noop_and_shrink (File.mk 0 [1, 2, 3] 1 false) 3).1 (by decide), ?_⟩
  have h := (C7_truncate_noop_and_shrink (File.mk 0 [1, 2, 3] 1 false) 1).2 (by decide)
  exact h.1.trans (by decide)

/-- C8: for every state with path `p` open with file state `f`,
`get_ciphertext` (the ciphertext snapshot) returns `encrypt(buffer)` — it
is a pure read, mutating nothing — the first flush sets the backing content
at `p` to that ciphertext while leaving the cache untouched, and a second
flush with no intervening write or truncate reproduces the very same
state, so the backing content is byte-identical both times. -/
theorem C8_flush_idempotent (s : Crypt) (p : String) (f : File)
    (h : dictGet s.files.files p = some f) :
    FilesCache.get_ciphertext s.files p = some (_encrypt f.data) ∧
    Crypt.flush s p = some (Crypt.mk s.files (dictSet s.backing p (_encrypt f.data))) ∧
    Crypt.flush (Crypt.mk s.files (dictSet s.backing p (_encrypt f.data))) p
      = some (Crypt.mk s.files (dictSet s.backing p (_encrypt f.data))) := by
  refine ⟨?_, ?_, ?_⟩
  · simp [FilesCache.get_ciphertext, h]
  · simp [Crypt.flush, Crypt._do_flush, FilesCache.get_ciphertext, h]
  · simp [Crypt.flush, Crypt._do_flush, FilesCache.get_ciphertext, h, dictSet_dictSet]

/-- C8 witness: the flush idempotence theorem at the concrete state holding
`"/a"` with buffer `[7]` and a stale backing content `[1]`. -/
theorem C8_witness :
    FilesCache.get_ciphertext (FilesCache.mk [("/a", File.mk 0 [7] 1 false)] 1) "/a"
      = some (_encrypt [7]) ∧
    Crypt.flush (Crypt.mk (FilesCache.mk [("/a", File.mk 0 [7] 1 false)] 1)
        [("/a", [1])]) "/a"
      = some (Crypt.mk (FilesCache.mk [("/a", File.mk 0 [7] 1 false)] 1)
          (dictSet [("/a", [1])] "/a" (_encrypt [7]))) ∧
    Crypt.flush (Crypt.mk (FilesCache.mk [("/a", File.mk 0 [7] 1 false)] 1)
        (dictSet [("/a", [1])] "/a" (_encrypt [7]))) "/a"
      = some (Crypt.mk (FilesCache.mk [("/a", File.mk 0 [7] 1 false)] 1)
          (dictSet [("/a", [1])] "/a" (_encrypt [7]))) :=
  C8_flush_idempotent
    (Crypt.mk (FilesCache.mk [("/a", File.mk 0 [7] 1 false)] 1) [("/a", [1])])
    "/a" (File.mk 0 [7] 1 false) (by decide)

/-- C9: the codec round-trip law — for every byte buffer `b`,
`decrypt(encrypt(b)) = b` (both source functions copy the bytes). -/
theorem C9_codec_roundtrip (b : List Nat) : _decrypt (_encrypt b) = b := rfl

/-- C10: for every state with path `p` open with file state `f` — with no
assumption on the dirty flag — `release(p)` succeeds and the backing
content at `p` afterwards is `encrypt(buffer)`: the flush effect is
performed unconditionally before the handle count is decremented (the
backing holds the ciphertext even when the decrement evicts the entry). -/
theorem C10_release_flushes (s : Crypt) (p : String) (f : File)
    (h : dictGet s.files.files p = some f) :
    (Crypt.release s p).map (fun t => dictGet t.backing p)
      = some (some (_encrypt f.data)) := by
  simp only [Crypt.release, Crypt._do_flush, FilesCache.get_ciphertext, h,
    FilesCache.release]
  by_cases hh : f.open_handles - 1 ≤ 0
  · simp [hh, dictGet_dictSet]
  · simp [hh, dictGet_dictSet]

/-- C10 witness: the release theorem at a clean file (`dirty = false`)
with buffer `[7]` at `"/a"` and empty backing. -/
theorem C10_witness :
    (Crypt.release (Crypt.mk (FilesCache.mk [("/a", File.mk 0 [7] 1 false)] 1) [])
        "/a").map (fun t => dictGet t.backing "/a")
      = some (some (_encrypt [7])) :=
  C10_release_flushes
    (Crypt.mk (FilesCache.mk [("/a", File.mk 0 [7] 1 false)] 1) [])
    "/a" (File.mk 0 [7] 1 false) (by decide)
